import Mathlib

/-!
Verification of the TEAAPP risk-classification engine.

Shallow embedding of the classification code of
`backend/services/weather_service.py`, `backend/services/tomorrowio_service.py`
and `backend/services/alert_service.py`.  Python floats are modelled as exact
rationals (`ℚ`), Python dicts with optional keys as structures of `Option`
fields (`dict.get(k, d)` becomes `Option.getD`), datetimes as their ISO
strings, and Python exceptions as `Except`.  Non-integer rational literals are
written with `mkRat` to keep every definition kernel-computable.
-/

/-- ASCII lower-casing of one character: the fragment of Python `str.lower`
relevant to this code base (all lookup-table keys are ASCII). -/
def ascii_lower (c : Char) : Char :=
  match c with
  | 'A' => 'a' | 'B' => 'b' | 'C' => 'c' | 'D' => 'd' | 'E' => 'e' | 'F' => 'f'
  | 'G' => 'g' | 'H' => 'h' | 'I' => 'i' | 'J' => 'j' | 'K' => 'k' | 'L' => 'l'
  | 'M' => 'm' | 'N' => 'n' | 'O' => 'o' | 'P' => 'p' | 'Q' => 'q' | 'R' => 'r'
  | 'S' => 's' | 'T' => 't' | 'U' => 'u' | 'V' => 'v' | 'W' => 'w' | 'X' => 'x'
  | 'Y' => 'y' | 'Z' => 'z'
  | c => c

/-- The 26 uppercase ASCII letters. -/
def upperChars : List Char :=
  ['A','B','C','D','E','F','G','H','I','J','K','L','M',
   'N','O','P','Q','R','S','T','U','V','W','X','Y','Z']

/-- Python `s.lower()` (ASCII fragment). -/
def py_lower (s : String) : String := ⟨s.data.map ascii_lower⟩

/-- Python `pat in s` substring test on strings. -/
def strContains (s pat : String) : Bool := decide (pat.data <:+: s.data)

/-- Python `round(x, 1)`: round half to even at one decimal place.  Binary
floating point is abstracted to exact rationals, so ties are resolved on the
exact value. -/
def pyRound1 (x : ℚ) : ℚ :=
  let num := x.num * 10
  let den : ℤ := (x.den : ℤ)
  let n := Int.fdiv num den
  let r := num - n * den
  let rounded : ℤ :=
    if 2 * r < den then n
    else if den < 2 * r then n + 1
    else if n % 2 = 0 then n else n + 1
  mkRat rounded 10

/-- State of the consecutive-risk-day tracking loop shared by both
`calculate_blister_blight_risk` implementations
(weather_service.py lines 93-119, tomorrowio_service.py lines 186-213). -/
structure StreakState where
  current_streak : Nat
  max_streak : Nat
  streak_start : Option String
  streak_end : Option String
deriving DecidableEq

/-- Loop-entry state: `current_streak = 0`, `max_streak = 0`, no dates yet. -/
def initStreak : StreakState := ⟨0, 0, none, none⟩

/-- One iteration of the consecutive-risk-day loop body
(weather_service.py lines 111-119 / tomorrowio_service.py lines 205-213):
on a risk day the running counter grows, the start date is recorded when a new
run begins, the end date is always overwritten, and the maximum is updated;
on a non-risk day only the running counter resets. -/
def streakUpdate (st : StreakState) (day_date : String) (is_risk : Bool) : StreakState :=
  if is_risk then
    { current_streak := st.current_streak + 1
      streak_start := if st.current_streak + 1 = 1 then some day_date else st.streak_start
      streak_end := some day_date
      max_streak := if st.current_streak + 1 > st.max_streak then st.current_streak + 1
                    else st.max_streak }
  else
    { st with current_streak := 0 }

/-- The whole streak loop over (date, qualifies) pairs. -/
def streak_scan (l : List (String × Bool)) : StreakState :=
  l.foldl (fun st p => streakUpdate st p.1 p.2) initStreak

/-- One record of the `forecast_summary` list built by either classifier. -/
structure ForecastEntry where
  date : String
  temperature : ℚ
  humidity : ℚ
  weather_icon : String
  is_risk_day : Bool
deriving DecidableEq

/-- The `RiskAssessment` pydantic model returned by both classifiers. -/
structure RiskAssessment where
  risk_level : String
  details : String
  consecutive_risk_days : Nat
  forecast_summary : List ForecastEntry
deriving DecidableEq

/-- Accumulator of the classifier loop: streak state plus the summary rows
appended so far. -/
structure ScanAcc where
  streak : StreakState
  forecast_summary : List ForecastEntry
deriving DecidableEq

/-! ### Specification-side definitions (from the spec's words, for refinement) -/

/-- Length of the leading run of `true`s. -/
def leadRun (l : List Bool) : Nat := (l.takeWhile id).length

/-- Longest run of `true`s anywhere, computed recursively: best run starting
at the head versus best run starting later. -/
def maxRun : List Bool → Nat
  | [] => 0
  | b :: l => max (if b then leadRun l + 1 else 0) (maxRun l)

/-- Spec: "the longest run of qualifying days found anywhere in the analyzed
window" — the greatest `n` such that `n` consecutive `true`s occur somewhere
in the flag list. -/
def longest_true_run (l : List Bool) : Nat :=
  Nat.findGreatest (fun n => (List.replicate n true) <:+: l) l.length

/-- Spec: the last (rightmost) run of qualifying days, read off the reversed
(date, qualifies) list: skip trailing non-qualifying days, then take the
qualifying block.  The result lists that run in reverse order. -/
def last_run_rev (l : List (String × Bool)) : List (String × Bool) :=
  (l.reverse.dropWhile (fun p => !p.2)).takeWhile (fun p => p.2)

/-- Date of the first day of the last run of qualifying days (if any). -/
def last_run_start (l : List (String × Bool)) : Option String :=
  (last_run_rev l).getLast?.map Prod.fst

/-- Date of the last qualifying day, i.e. the last day of the last run. -/
def last_run_end (l : List (String × Bool)) : Option String :=
  (last_run_rev l).head?.map Prod.fst

namespace weather_service

/-- One Meteosource daily record as consumed by
`weather_service.calculate_blister_blight_risk` (lines 98-105): the fields the
function reads, each optional.  `day.get("all_day", {}).get(k, d)` collapses to
one optional field per key, since a missing `all_day` dict and a missing key
yield the same default. -/
structure MsDay where
  day : Option String
  all_day_temperature : Option ℚ
  all_day_humidity : Option ℚ
  summary : Option String
deriving DecidableEq

/-- weather_service.py `get_weather_icon` (lines 59-73). -/
def get_weather_icon (summary : String) : String :=
  let summary_lower := py_lower summary
  if strContains summary_lower ("rain") || strContains summary_lower ("shower") then "🌧️"
  else if strContains summary_lower ("cloud") then "☁️"
  else if strContains summary_lower ("sun") || strContains summary_lower ("clear") then "☀️"
  else if strContains summary_lower ("storm") || strContains summary_lower ("thunder") then "⛈️"
  else if strContains summary_lower ("fog") || strContains summary_lower ("mist") then "🌫️"
  else "🌤️"

/-- Line 108: `is_risk_day = humidity > 90 and temperature < 25`, with the
defaults of lines 103-104 (missing temperature ↦ 30, missing humidity ↦ 50). -/
def is_risk_day (day : MsDay) : Bool :=
  decide (day.all_day_humidity.getD 50 > 90 ∧ day.all_day_temperature.getD 30 < 25)

/-- The summary row appended at lines 123-129. -/
def day_entry (day : MsDay) : ForecastEntry :=
  { date := day.day.getD ("Unknown")
    temperature := day.all_day_temperature.getD 30
    humidity := day.all_day_humidity.getD 50
    weather_icon := get_weather_icon (day.summary.getD (""))
    is_risk_day := is_risk_day day }

/-- One iteration of the loop body, lines 98-129. -/
def scan_step (acc : ScanAcc) (day : MsDay) : ScanAcc :=
  { streak := streakUpdate acc.streak (day.day.getD ("Unknown")) (is_risk_day day)
    forecast_summary := acc.forecast_summary ++ [day_entry day] }

/-- weather_service.py `calculate_blister_blight_risk` (lines 76-147).
`f"{None}"` in Python prints "None", modelled by `Option.getD _ "None"`. -/
def calculate_blister_blight_risk (daily_data : List MsDay) : RiskAssessment :=
  let acc := (daily_data.take 7).foldl scan_step ⟨initStreak, []⟩
  let st := acc.streak
  if st.max_streak ≥ 3 then
    { risk_level := "HIGH"
      details := "⚠️ High Blister Blight risk detected from " ++ st.streak_start.getD ("None")
        ++ " to " ++ st.streak_end.getD ("None")
        ++ ". Deploy fungicide immediately. Conditions: " ++ toString st.max_streak
        ++ " consecutive days with humidity >90% and temp <25°C."
      consecutive_risk_days := st.max_streak
      forecast_summary := acc.forecast_summary.take 3 }
  else if st.max_streak ≥ 2 then
    { risk_level := "MODERATE"
      details := "⚡ Moderate disease risk. Monitor closely from " ++ st.streak_start.getD ("None")
        ++ " to " ++ st.streak_end.getD ("None") ++ ". Prepare preventive measures."
      consecutive_risk_days := st.max_streak
      forecast_summary := acc.forecast_summary.take 3 }
  else
    { risk_level := "LOW"
      details := "✅ Low disease risk. Weather conditions are favorable for crop health."
      consecutive_risk_days := st.max_streak
      forecast_summary := acc.forecast_summary.take 3 }

/-- The (date, qualifies) projection of the analyzed (truncated) window. -/
def day_pairs (daily_data : List MsDay) : List (String × Bool) :=
  (daily_data.take 7).map (fun d => (d.day.getD ("Unknown"), is_risk_day d))

end weather_service

namespace tomorrowio_service

/-- One Tomorrow.io daily interval as consumed by
`tomorrowio_service.calculate_blister_blight_risk` (lines 191-198): the fields
the function reads, each optional (`values` dict collapsed fieldwise). -/
structure TioInterval where
  startTime : Option String
  temperature : Option ℚ
  humidity : Option ℚ
  weatherCode : Option Int
deriving DecidableEq

/-- The `code_map` dict of tomorrowio_service.py `get_weather_icon`
(lines 140-164). -/
def code_map : List (Int × String) :=
  [(1000, "☀️"), (1100, "🌤️"), (1101, "⛅"), (1102, "☁️"), (1001, "☁️"),
   (2000, "🌫️"), (2100, "🌫️"),
   (4000, "🌧️"), (4001, "🌧️"), (4200, "🌧️"), (4201, "🌧️"),
   (5000, "❄️"), (5001, "❄️"), (5100, "❄️"), (5101, "❄️"),
   (6000, "🌧️❄️"), (6001, "🌧️❄️"), (6200, "🌧️❄️"), (6201, "🌧️❄️"),
   (7000, "🧊"), (7101, "🧊"), (7102, "🧊"),
   (8000, "⛈️")]

/-- tomorrowio_service.py `get_weather_icon` (lines 134-165):
`code_map.get(weather_code, "🌤️")`. -/
def get_weather_icon (weather_code : Int) : String :=
  (code_map.lookup weather_code).getD ("🌤️")

/-- Line 202: `is_risk_day = humidity > 90 and temperature < 25`, with the
defaults of lines 196-197 (missing temperature ↦ 30, missing humidity ↦ 50). -/
def is_risk_day (interval : TioInterval) : Bool :=
  decide (interval.humidity.getD 50 > 90 ∧ interval.temperature.getD 30 < 25)

/-- Line 217: `start_time[:10] if start_time else "Unknown"`, where
`start_time = interval.get('startTime', '')` (the empty string is falsy). -/
def interval_date (interval : TioInterval) : String :=
  let start_time := interval.startTime.getD ("")
  if start_time = "" then "Unknown" else start_time.take 10

/-- The summary row appended at lines 216-222 (values rounded to 1 decimal). -/
def interval_entry (interval : TioInterval) : ForecastEntry :=
  { date := interval_date interval
    temperature := pyRound1 (interval.temperature.getD 30)
    humidity := pyRound1 (interval.humidity.getD 50)
    weather_icon := get_weather_icon (interval.weatherCode.getD 1000)
    is_risk_day := is_risk_day interval }

/-- One iteration of the loop body, lines 191-222.  The streak dates record
the full `startTime` string (sliced to 10 characters only in the details). -/
def scan_step (acc : ScanAcc) (interval : TioInterval) : ScanAcc :=
  { streak := streakUpdate acc.streak (interval.startTime.getD ("")) (is_risk_day interval)
    forecast_summary := acc.forecast_summary ++ [interval_entry interval] }

/-- tomorrowio_service.py `calculate_blister_blight_risk` (lines 170-251).
In the two dated branches the source slices `streak_start[:10]`; those branches
are reached only with `max_streak ≥ 2`, when both dates are set, so the
`getD ""` default is never observable. -/
def calculate_blister_blight_risk (daily_data : List TioInterval) : RiskAssessment :=
  let acc := (daily_data.take 7).foldl scan_step ⟨initStreak, []⟩
  let st := acc.streak
  if st.max_streak ≥ 3 then
    { risk_level := "HIGH"
      details := "⚠️ High Blister Blight risk from " ++ (st.streak_start.getD ("")).take 10
        ++ " to " ++ (st.streak_end.getD ("")).take 10
        ++ ". Deploy fungicide immediately. Conditions: " ++ toString st.max_streak
        ++ " consecutive days with humidity >90% and temp <25°C. Inspect tea bushes for early symptoms."
      consecutive_risk_days := st.max_streak
      forecast_summary := acc.forecast_summary.take 3 }
  else if st.max_streak ≥ 2 then
    { risk_level := "MODERATE"
      details := "⚡ Moderate disease risk detected from " ++ (st.streak_start.getD ("")).take 10
        ++ " to " ++ (st.streak_end.getD ("")).take 10
        ++ ". Monitor tea estates closely. Prepare preventive fungicide sprays. "
        ++ toString st.max_streak ++ " consecutive risk days identified."
      consecutive_risk_days := st.max_streak
      forecast_summary := acc.forecast_summary.take 3 }
  else
    { risk_level := "LOW"
      details := "✅ Low disease risk. Weather conditions are favorable for crop health. Continue regular monitoring and maintenance routines."
      consecutive_risk_days := st.max_streak
      forecast_summary := acc.forecast_summary.take 3 }

/-- The (startTime, qualifies) projection of the analyzed (truncated) window. -/
def interval_pairs (daily_data : List TioInterval) : List (String × Bool) :=
  (daily_data.take 7).map (fun i => (i.startTime.getD (""), is_risk_day i))

end tomorrowio_service

namespace alert_service

/-- alert_service.py `map_event_type` (lines 94-105). -/
def map_event_type (tomorrow_insight : String) : String :=
  let mapping : List (String × String) :=
    [("flood", "flood"), ("tropical", "cyclone"), ("wind", "wind"),
     ("winter", "temperature"), ("temperature", "temperature"),
     ("thunderstorm", "heavy_rain"), ("other", "heavy_rain")]
  (mapping.lookup (py_lower tomorrow_insight)).getD ("heavy_rain")

/-- alert_service.py `map_severity` (lines 108-116). -/
def map_severity (tomorrow_severity : String) : String :=
  let mapping : List (String × String) :=
    [("minor", "advisory"), ("moderate", "watch"),
     ("severe", "warning"), ("extreme", "critical")]
  (mapping.lookup (py_lower tomorrow_severity)).getD ("advisory")

/-- alert_service.py `generate_recommendations` (lines 119-193). -/
def generate_recommendations (alert_type severity : String) : List String :=
  if alert_type = "flood" then
    if severity ∈ (["critical", "warning"] : List String) then
      ["Move tea processing equipment to higher ground immediately",
       "Clear all drainage channels and culverts",
       "Harvest mature tea leaves if possible within next 6 hours",
       "Prepare sandbags for estate buildings and storage",
       "Evacuate workers from low-lying areas",
       "Monitor river levels every hour"]
    else
      ["Check drainage systems are clear",
       "Identify safe evacuation routes",
       "Stock emergency supplies (fuel, food, medical)",
       "Move valuable equipment to elevated storage"]
  else if alert_type = "cyclone" then
    if severity ∈ (["critical", "warning"] : List String) then
      ["Secure all loose structures and equipment NOW",
       "Emergency harvest of tea if within 12h of storm",
       "Board up windows on estate buildings",
       "Evacuate workers to designated safe zones",
       "Stock 7 days of emergency supplies",
       "Monitor official weather updates every 2 hours"]
    else
      ["Prepare emergency kits and supplies",
       "Identify cyclone shelter locations",
       "Secure outdoor equipment",
       "Review evacuation procedures with staff"]
  else if alert_type = "heavy_rain" then
    ["Delay all field operations during heavy rain",
     "Protect workers from lightning (move indoors)",
     "Cover harvested tea leaves to prevent damage",
     "Check for waterlogging and ponding after storm",
     "Inspect tea bushes for physical damage"]
  else if alert_type = "landslide" then
    if severity ∈ (["critical", "warning"] : List String) then
      ["EVACUATE workers from slope areas immediately",
       "Stay away from hillside tea estates",
       "Monitor for ground cracks, tilted trees, unusual sounds",
       "Do not attempt to harvest on slopes during/after heavy rain",
       "Contact local authorities for geological assessment"]
    else
      ["Monitor slope stability indicators",
       "Avoid unnecessary access to steep areas",
       "Report any ground movement to authorities"]
  else if alert_type = "drought" then
    ["Increase irrigation frequency immediately",
     "Apply mulch to retain soil moisture",
     "Monitor tea bush stress indicators (leaf curl, yellowing)",
     "Reduce plucking intensity to conserve plant energy",
     "Check irrigation system functionality daily"]
  else
    ["Monitor weather conditions closely and follow official advisories"]

/-- alert_service.py `calculate_landslide_risk` (lines 198-252).  The Python
defaults are `soil_moisture = 0.5` and `slope_degrees = 20.0`; callers here
always pass all four arguments.  `mkRat 8 10` is 0.8, `mkRat 6 10` is 0.6. -/
def calculate_landslide_risk (precipitation_mm precipitation_3day soil_moisture slope_degrees : ℚ) :
    String × ℤ :=
  let risk_score : ℤ := 0
  let risk_score :=
    if precipitation_3day > 200 then risk_score + 40
    else if precipitation_3day > 100 then risk_score + 25
    else if precipitation_3day > 50 then risk_score + 10
    else risk_score
  let risk_score :=
    if precipitation_mm > 50 then risk_score + 30
    else if precipitation_mm > 25 then risk_score + 15
    else risk_score
  let risk_score :=
    if soil_moisture > mkRat 8 10 then risk_score + 20
    else if soil_moisture > mkRat 6 10 then risk_score + 10
    else risk_score
  let risk_score :=
    if slope_degrees > 30 then risk_score + 10
    else if slope_degrees > 20 then risk_score + 5
    else risk_score
  if risk_score ≥ 70 then ("critical", risk_score)
  else if risk_score ≥ 50 then ("warning", risk_score)
  else if risk_score ≥ 30 then ("watch", risk_score)
  else ("advisory", risk_score)

/-- Spec band table: 3-day precipitation contribution. -/
def precip3_points (x : ℚ) : ℤ :=
  if x > 200 then 40 else if x > 100 then 25 else if x > 50 then 10 else 0

/-- Spec band table: precipitation-intensity contribution. -/
def intensity_points (x : ℚ) : ℤ :=
  if x > 50 then 30 else if x > 25 then 15 else 0

/-- Spec band table: soil-moisture contribution (0.8 / 0.6 thresholds). -/
def soil_points (x : ℚ) : ℤ :=
  if x > mkRat 8 10 then 20 else if x > mkRat 6 10 then 10 else 0

/-- Spec band table: slope contribution. -/
def slope_points (x : ℚ) : ℤ :=
  if x > 30 then 10 else if x > 20 then 5 else 0

/-- Spec severity bucketing of the additive score. -/
def severity_bucket (score : ℤ) : String :=
  if score ≥ 70 then "critical"
  else if score ≥ 50 then "warning"
  else if score ≥ 30 then "watch"
  else "advisory"

/-- The `DisasterAlert` pydantic model (lines 23-36); datetimes are modelled
by their ISO strings, the coordinate pair as a pair of rationals. -/
structure DisasterAlert where
  id : String
  type : String
  severity : String
  title : String
  description : String
  affected_regions : List String
  start_time : String
  end_time : Option String
  coordinates : ℚ × ℚ
  radius : ℚ
  source : String
  recommendations : List String
deriving DecidableEq

/-- One interval of the flood-risk time series (lines 309-310):
`interval.get('values', {}).get('floodRiskIndex', 0)` collapses to an optional
index field; the series' start timestamp is a well-formed ISO string per the
provider contract. -/
structure FloodInterval where
  startTime : String
  floodRiskIndex : Option ℚ
deriving DecidableEq

/-- The flood alert built at lines 313-326.  `now_ts` stands for
`datetime.now().timestamp()`; the f-string interpolation of the numeric index
is modelled with `toString`. -/
def mk_flood_alert (lat lon : ℚ) (now_ts : String) (interval : FloodInterval) : DisasterAlert :=
  let flood_index := interval.floodRiskIndex.getD 0
  { id := "flood_" ++ now_ts
    type := "flood"
    severity := if flood_index > 85 then "warning" else "watch"
    title := "Flood Risk Alert - Index " ++ toString flood_index ++ "%"
    description := "High flood risk predicted. Risk index: " ++ toString flood_index
      ++ "/100. Based on precipitation forecasts and hydrologic modeling."
    affected_regions := ["Local Area"]
    start_time := interval.startTime
    end_time := none
    coordinates := (lat, lon)
    radius := 50
    source := "tomorrowio"
    recommendations := generate_recommendations ("flood")
      (if flood_index > 85 then "warning" else "watch") }

/-- The loop of lines 309-328: scan intervals in order; the first index above
70 appends one alert and `break`s. -/
def flood_scan (lat lon : ℚ) (now_ts : String) : List FloodInterval → List DisasterAlert
  | [] => []
  | interval :: rest =>
    if interval.floodRiskIndex.getD 0 > 70 then [mk_flood_alert lat lon now_ts interval]
    else flood_scan lat lon now_ts rest

/-- The flood-risk half of `get_active_alerts` (lines 301-328):
`intervals[:5]` then the first-qualifying scan. -/
def flood_risk_alerts (lat lon : ℚ) (now_ts : String) (intervals : List FloodInterval) :
    List DisasterAlert :=
  flood_scan lat lon now_ts (intervals.take 5)

/-- A raw timestamp field of a provider event: either a well-formed ISO string
or a garbled (unparsable) one. -/
inductive IsoField
  | valid (t : String)
  | garbled (s : String)
deriving DecidableEq

/-- Python `datetime.fromisoformat` (after the `.replace('Z', '+00:00')`
normalisation), abstracted over the tag: a well-formed string parses to
itself, a garbled one raises `ValueError`. -/
def fromisoformat : IsoField → Except String String
  | .valid t => .ok t
  | .garbled s => .error ("Invalid isoformat string: " ++ s)

/-- One raw Tomorrow.io event record as consumed by `get_active_alerts`
(lines 278-295): every field the loop reads, each optional.
`event.get('location', {}).get('name', 'Unknown')` collapses to one optional
name field. -/
structure TioEvent where
  eventId : Option String
  insight : Option String
  severity : Option String
  title : Option String
  description : Option String
  location_name : Option String
  startTime : Option IsoField
  endTime : Option IsoField
deriving DecidableEq

/-- Processing of one event (lines 279-295): mapping tables, `.get` defaults,
then the alert construction whose timestamp parses may raise.  `now_iso`
stands for `datetime.now().isoformat()` (always well-formed, the `startTime`
fallback of line 289) and `now_ts` for `datetime.now().timestamp()` (the
`eventId` fallback of line 283). -/
def process_event (lat lon : ℚ) (now_iso now_ts : String) (event : TioEvent) :
    Except String DisasterAlert := do
  let alert_type := map_event_type (event.insight.getD (""))
  let severity := map_severity (event.severity.getD (""))
  let start_time ← fromisoformat (event.startTime.getD (.valid now_iso))
  let end_time ← match event.endTime with
    | some t => Except.map some (fromisoformat t)
    | none => Except.ok none
  Except.ok
    { id := event.eventId.getD ("evt_" ++ now_ts)
      type := alert_type
      severity := severity
      title := event.title.getD ("Weather Alert")
      description := event.description.getD ("No description available")
      affected_regions := [event.location_name.getD ("Unknown")]
      start_time := start_time
      end_time := end_time
      coordinates := (lat, lon)
      radius := 100
      source := "tomorrowio"
      recommendations := generate_recommendations alert_type severity }

/-- The event loop of lines 278-296 under the single `try` of lines 274-299:
alerts are appended one by one; the first raising event escapes the loop and
the `except` keeps the alerts accumulated so far. -/
def process_events (lat lon : ℚ) (now_iso now_ts : String) :
    List TioEvent → List DisasterAlert → List DisasterAlert
  | [], alerts => alerts
  | event :: rest, alerts =>
    match process_event lat lon now_iso now_ts event with
    | .ok alert => process_events lat lon now_iso now_ts rest (alerts ++ [alert])
    | .error _ => alerts

/-- The events half of `get_active_alerts` (lines 274-299): a failed fetch of
the feed is caught and yields zero events. -/
def event_alerts (lat lon : ℚ) (now_iso now_ts : String)
    (fetched : Except String (List TioEvent)) : List DisasterAlert :=
  match fetched with
  | .error _ => []
  | .ok events => process_events lat lon now_iso now_ts events []

/-- alert_service.py `get_active_alerts` (lines 257-333): event alerts from
the events feed followed by at most one flood-risk alert; either fetch failing
is caught and contributes nothing. -/
def get_active_alerts (lat lon : ℚ) (now_iso now_ts : String)
    (fetched_events : Except String (List TioEvent))
    (fetched_flood : Except String (List FloodInterval)) : List DisasterAlert :=
  event_alerts lat lon now_iso now_ts fetched_events ++
    (match fetched_flood with
     | .error _ => []
     | .ok intervals => flood_risk_alerts lat lon now_ts intervals)

end alert_service

/-- Spec: the qualifying-day flags of the analyzed window of the meteosource
classifier — first 7 (truncated) entries, a day qualifying iff
humidity > 90 and temperature < 25 (with the missing-field defaults 50/30). -/
def ws_risk_flags (lw : List weather_service.MsDay) : List Bool :=
  (lw.take 7).map (fun d =>
    decide (d.all_day_humidity.getD 50 > 90 ∧ d.all_day_temperature.getD 30 < 25))

/-- Spec: the qualifying-day flags of the analyzed window of the Tomorrow.io
classifier. -/
def tio_risk_flags (lt : List tomorrowio_service.TioInterval) : List Bool :=
  (lt.take 7).map (fun i =>
    decide (i.humidity.getD 50 > 90 ∧ i.temperature.getD 30 < 25))

/-- Concrete input for C2: qualifying runs on days 1-2 (the unique run of
maximal length 2) and day 4 (a later, shorter run). -/
def c2_demo : List weather_service.MsDay :=
  [⟨some "2024-01-01", some 20, some 95, none⟩,
   ⟨some "2024-01-02", some 20, some 95, none⟩,
   ⟨some "2024-01-03", some 20, some 50, none⟩,
   ⟨some "2024-01-04", some 20, some 95, none⟩]

/-- Concrete Tomorrow.io input with a qualifying run of length 2. -/
def c2_tio_demo : List tomorrowio_service.TioInterval :=
  [⟨some "2024-01-01T00:00:00+00:00", some 20, some 95, none⟩,
   ⟨some "2024-01-02T00:00:00+00:00", some 20, some 95, none⟩]

/-- Concrete input for C6: a temperature with two decimal places (20.55). -/
def c6_demo : List weather_service.MsDay :=
  [⟨some "2024-01-01", some (mkRat 411 20), some 50, none⟩]

namespace alert_service

/-- Concrete event for C5 whose `startTime` field is present but garbled. -/
def c5_bad_event : TioEvent :=
  ⟨none, none, none, none, none, none, some (.garbled ("not-a-timestamp")), none⟩

/-- Concrete well-formed event for C5. -/
def c5_good_event : TioEvent :=
  ⟨some "evt1", some "flood", some "severe", some "Flood Warning", some "River rising",
   some "Kandy", some (.valid ("2024-01-01T06:00:00+00:00")), none⟩

end alert_service

/-! ### Streak machinery: the scan's maximum equals the longest run -/

theorem leadRun_cons_true (l : List Bool) : leadRun (true :: l) = leadRun l + 1 := by
  simp [leadRun, List.takeWhile_cons]

theorem leadRun_cons_false (l : List Bool) : leadRun (false :: l) = 0 := rfl

theorem maxRun_cons_true (l : List Bool) : maxRun (true :: l) = max (leadRun l + 1) (maxRun l) := by
  simp [maxRun]

theorem maxRun_cons_false (l : List Bool) : maxRun (false :: l) = maxRun l := by
  simp [maxRun]

theorem leadRun_le_length (l : List Bool) : leadRun l ≤ l.length :=
  (List.takeWhile_sublist _).length_le

theorem leadRun_le_maxRun (l : List Bool) : leadRun l ≤ maxRun l := by
  cases l with
  | nil => simp [leadRun, maxRun]
  | cons b l =>
    cases b
    · simp [leadRun_cons_false]
    · rw [leadRun_cons_true, maxRun_cons_true]
      omega

theorem maxRun_le_length (l : List Bool) : maxRun l ≤ l.length := by
  induction l with
  | nil => simp [maxRun]
  | cons b l ih =>
    have h1 := leadRun_le_length l
    cases b
    · rw [maxRun_cons_false]
      simp only [List.length_cons]
      omega
    · rw [maxRun_cons_true]
      simp only [List.length_cons]
      omega

theorem leadRun_replicate_append (k : Nat) (r : List Bool) :
    leadRun (List.replicate k true ++ r) = k + leadRun r := by
  induction k with
  | zero => simp
  | succ k ih =>
    rw [List.replicate_succ, List.cons_append, leadRun_cons_true, ih]
    omega

theorem leadRun_replicate (k : Nat) : leadRun (List.replicate k true) = k := by
  have h := leadRun_replicate_append k []
  rw [List.append_nil] at h
  exact h

theorem le_maxRun_replicate_append (k : Nat) (r : List Bool) :
    k ≤ maxRun (List.replicate k true ++ r) := by
  have h := leadRun_le_maxRun (List.replicate k true ++ r)
  rw [leadRun_replicate_append] at h
  omega

theorem maxRun_replicate_append_false (c : Nat) (r : List Bool) :
    maxRun (List.replicate c true ++ false :: r) = max c (maxRun r) := by
  induction c with
  | zero => simp [maxRun_cons_false]
  | succ c ih =>
    rw [List.replicate_succ, List.cons_append, maxRun_cons_true, ih,
      leadRun_replicate_append, leadRun_cons_false]
    omega

theorem maxRun_replicate (c : Nat) : maxRun (List.replicate c true) = c := by
  induction c with
  | zero => rfl
  | succ c ih =>
    rw [List.replicate_succ, maxRun_cons_true, ih, leadRun_replicate]
    omega

theorem foldl_max_streak (l : List (String × Bool)) (st : StreakState)
    (h : st.current_streak ≤ st.max_streak) :
    (l.foldl (fun s p => streakUpdate s p.1 p.2) st).max_streak
      = max st.max_streak (maxRun (List.replicate st.current_streak true ++ l.map Prod.snd)) := by
  induction l generalizing st with
  | nil =>
    simp only [List.foldl_nil, List.map_nil, List.append_nil, maxRun_replicate]
    omega
  | cons p l ih =>
    rcases hb : p.2 with _ | _
    · -- non-qualifying day: only the running counter resets
      have hstep : streakUpdate st p.1 p.2 = { st with current_streak := 0 } := by
        simp [streakUpdate, hb]
      rw [List.foldl_cons, hstep, ih _ (by simp)]
      simp only [List.map_cons, hb, List.replicate_zero, List.nil_append]
      rw [maxRun_replicate_append_false]
      omega
    · -- qualifying day
      have hstep : streakUpdate st p.1 p.2 =
          { current_streak := st.current_streak + 1
            streak_start := if st.current_streak + 1 = 1 then some p.1 else st.streak_start
            streak_end := some p.1
            max_streak := if st.current_streak + 1 > st.max_streak then st.current_streak + 1
                          else st.max_streak } := by
        simp [streakUpdate, hb]
      have hmax : (if st.current_streak + 1 > st.max_streak then st.current_streak + 1
          else st.max_streak) = max st.max_streak (st.current_streak + 1) := by
        split <;> omega
      rw [List.foldl_cons, hstep, ih _ (by simp only [hmax]; omega)]
      simp only [List.map_cons, hb, hmax]
      have hrepl : List.replicate (st.current_streak + 1) true ++ l.map Prod.snd
          = List.replicate st.current_streak true ++ true :: l.map Prod.snd := by
        rw [List.replicate_succ', List.append_assoc, List.singleton_append]
      rw [← hrepl]
      have hge := le_maxRun_replicate_append (st.current_streak + 1) (l.map Prod.snd)
      omega

theorem streak_scan_max (l : List (String × Bool)) :
    (streak_scan l).max_streak = maxRun (l.map Prod.snd) := by
  have h := foldl_max_streak l initStreak (by simp [initStreak])
  simpa [streak_scan, initStreak] using h

theorem replicate_leadRun_eq_takeWhile (l : List Bool) :
    List.replicate (leadRun l) true = l.takeWhile id := by
  induction l with
  | nil => rfl
  | cons b l ih =>
    cases b
    · rfl
    · simp [leadRun_cons_true, List.takeWhile_cons, List.replicate_succ, ih]

theorem replicate_maxRun_isInfix (l : List Bool) : List.replicate (maxRun l) true <:+: l := by
  induction l with
  | nil => simp [maxRun]
  | cons b l ih =>
    cases b
    · rw [maxRun_cons_false]
      exact ih.trans (List.suffix_cons false l).isInfix
    · rw [maxRun_cons_true]
      rcases le_or_lt (leadRun l + 1) (maxRun l) with h | h
      · rw [Nat.max_eq_right h]
        exact ih.trans (List.suffix_cons true l).isInfix
      · rw [Nat.max_eq_left (Nat.le_of_lt h), List.replicate_succ]
        have hp : List.replicate (leadRun l) true <+: l := by
          rw [replicate_leadRun_eq_takeWhile]; exact List.takeWhile_prefix id
        exact (List.cons_prefix_cons.mpr ⟨rfl, hp⟩).isInfix

theorem replicate_prefix_le_leadRun {k : Nat} {l : List Bool}
    (h : List.replicate k true <+: l) : k ≤ leadRun l := by
  obtain ⟨t, ht⟩ := h
  subst ht
  rw [leadRun_replicate_append]
  omega

theorem isInfix_le_maxRun {n : Nat} {l : List Bool}
    (h : List.replicate n true <:+: l) : n ≤ maxRun l := by
  induction l with
  | nil =>
    have h0 : n ≤ 0 := by simpa using h.sublist.length_le
    simp [maxRun]
    omega
  | cons b l ih =>
    rcases List.infix_cons_iff.mp h with hpre | hinf
    · cases n with
      | zero => omega
      | succ k =>
        rw [List.replicate_succ] at hpre
        rcases List.cons_prefix_cons.mp hpre with ⟨hb, htail⟩
        have hk := replicate_prefix_le_leadRun htail
        rw [← hb, maxRun_cons_true]
        omega
    · have := ih hinf
      cases b
      · rw [maxRun_cons_false]; omega
      · rw [maxRun_cons_true]; omega

theorem longest_true_run_eq_maxRun (l : List Bool) : longest_true_run l = maxRun l := by
  rw [longest_true_run, Nat.findGreatest_eq_iff]
  refine ⟨maxRun_le_length l, fun _ => replicate_maxRun_isInfix l, fun n hlt _ hP => ?_⟩
  exact absurd (isInfix_le_maxRun hP) (by omega)

/-! ### Streak machinery: the scan's recorded dates are those of the last run -/

theorem streak_scan_append (l : List (String × Bool)) (p : String × Bool) :
    streak_scan (l ++ [p]) = streakUpdate (streak_scan l) p.1 p.2 := by
  simp [streak_scan, List.foldl_append]

theorem streak_scan_dates (l : List (String × Bool)) :
    (streak_scan l).current_streak = (l.reverse.takeWhile (fun p => p.2)).length
    ∧ (streak_scan l).streak_start = last_run_start l
    ∧ (streak_scan l).streak_end = last_run_end l := by
  induction l using List.reverseRecOn with
  | nil => simp [streak_scan, initStreak, last_run_start, last_run_end, last_run_rev]
  | append_singleton l p ih =>
    obtain ⟨ihc, ihs, ihe⟩ := ih
    rw [streak_scan_append]
    rcases hb : p.2 with _ | _
    · -- non-qualifying day: counter resets, dates and last run unchanged
      have hstep : streakUpdate (streak_scan l) p.1 false
          = { streak_scan l with current_streak := 0 } := by
        simp [streakUpdate]
      rw [hstep]
      refine ⟨?_, ?_, ?_⟩
      · simp [List.reverse_append, List.takeWhile_cons, hb]
      · rw [ihs]
        simp [last_run_start, last_run_rev, List.reverse_append, List.dropWhile_cons, hb]
      · rw [ihe]
        simp [last_run_end, last_run_rev, List.reverse_append, List.dropWhile_cons, hb]
    · -- qualifying day
      have hstep : streakUpdate (streak_scan l) p.1 true =
          { current_streak := (streak_scan l).current_streak + 1
            streak_start := if (streak_scan l).current_streak + 1 = 1 then some p.1
                            else (streak_scan l).streak_start
            streak_end := some p.1
            max_streak := if (streak_scan l).current_streak + 1 > (streak_scan l).max_streak
                          then (streak_scan l).current_streak + 1
                          else (streak_scan l).max_streak } := by
        simp [streakUpdate]
      rw [hstep]
      have hrev : (l ++ [p]).reverse = p :: l.reverse := by simp
      have hlrr : last_run_rev (l ++ [p]) = p :: l.reverse.takeWhile (fun q => q.2) := by
        simp [last_run_rev, hrev, List.dropWhile_cons, hb, List.takeWhile_cons]
      refine ⟨?_, ?_, ?_⟩
      · simp [hrev, List.takeWhile_cons, hb, ihc]
      · -- start date
        rcases htw : l.reverse.takeWhile (fun r => r.2) with _ | ⟨q, t⟩
        · -- the current run is empty: a new run starts at p
          have hc0 : (streak_scan l).current_streak = 0 := by rw [ihc, htw]; rfl
          rw [last_run_start, hlrr, htw]
          simp [hc0]
        · -- the current run is nonempty: p extends it and the start is unchanged
          have hcpos : (streak_scan l).current_streak = t.length + 1 := by
            rw [ihc, htw]; simp
          have hne : (streak_scan l).current_streak + 1 ≠ 1 := by omega
          obtain ⟨rl, hrl⟩ : ∃ rl, l.reverse = q :: rl := by
            have h1 := List.takeWhile_prefix (l := l.reverse) (fun r => r.2)
            rw [htw] at h1
            obtain ⟨s, hs⟩ := h1
            exact ⟨t ++ s, by rw [← hs]; simp⟩
          have hq2 : q.2 = true := by
            have h3 : q ∈ l.reverse.takeWhile (fun r => r.2) := by
              rw [htw]; exact List.mem_cons_self q t
            exact List.mem_takeWhile_imp h3
          have hdrop : l.reverse.dropWhile (fun r => !r.2) = l.reverse := by
            rw [hrl, List.dropWhile_cons]
            simp [hq2]
          have hlrl : last_run_rev l = q :: t := by
            rw [last_run_rev, hdrop, htw]
          have hstart : last_run_start (l ++ [p]) = last_run_start l := by
            rw [last_run_start, last_run_start, hlrr, htw, hlrl, List.getLast?_cons_cons]
          rw [if_neg hne, ihs, hstart]
      · simp [last_run_end, hlrr]

/-! ### Bridges from the classifiers to the generic scan -/

namespace weather_service

theorem ws_foldl_streak (l : List MsDay) (st : StreakState) (es : List ForecastEntry) :
    (l.foldl scan_step ⟨st, es⟩).streak
      = (l.map (fun d => (d.day.getD ("Unknown"), is_risk_day d))).foldl
          (fun s p => streakUpdate s p.1 p.2) st := by
  induction l generalizing st es with
  | nil => rfl
  | cons d l ih =>
    rw [List.foldl_cons, List.map_cons, List.foldl_cons]
    exact ih _ _

theorem ws_foldl_summary (l : List MsDay) (st : StreakState) (es : List ForecastEntry) :
    (l.foldl scan_step ⟨st, es⟩).forecast_summary = es ++ l.map day_entry := by
  induction l generalizing st es with
  | nil => simp
  | cons d l ih =>
    rw [List.foldl_cons, List.map_cons]
    have h := ih (streakUpdate st (d.day.getD ("Unknown")) (is_risk_day d)) (es ++ [day_entry d])
    exact h.trans (by simp)

theorem ws_streak_eq (lw : List MsDay) :
    ((lw.take 7).foldl scan_step ⟨initStreak, []⟩).streak = streak_scan (day_pairs lw) := by
  rw [ws_foldl_streak]; rfl

theorem ws_summary_eq (lw : List MsDay) :
    ((lw.take 7).foldl scan_step ⟨initStreak, []⟩).forecast_summary = (lw.take 7).map day_entry := by
  rw [ws_foldl_summary]; simp

theorem ws_calc_fields (lw : List MsDay) :
    (calculate_blister_blight_risk lw).consecutive_risk_days = (streak_scan (day_pairs lw)).max_streak
    ∧ (calculate_blister_blight_risk lw).forecast_summary = ((lw.take 7).map day_entry).take 3
    ∧ (calculate_blister_blight_risk lw).risk_level =
        (if (streak_scan (day_pairs lw)).max_streak ≥ 3 then "HIGH"
         else if (streak_scan (day_pairs lw)).max_streak ≥ 2 then "MODERATE" else "LOW")
    ∧ (calculate_blister_blight_risk lw).details =
        (if (streak_scan (day_pairs lw)).max_streak ≥ 3 then
          "⚠️ High Blister Blight risk detected from "
            ++ (streak_scan (day_pairs lw)).streak_start.getD ("None")
            ++ " to " ++ (streak_scan (day_pairs lw)).streak_end.getD ("None")
            ++ ". Deploy fungicide immediately. Conditions: "
            ++ toString (streak_scan (day_pairs lw)).max_streak
            ++ " consecutive days with humidity >90% and temp <25°C."
         else if (streak_scan (day_pairs lw)).max_streak ≥ 2 then
          "⚡ Moderate disease risk. Monitor closely from "
            ++ (streak_scan (day_pairs lw)).streak_start.getD ("None")
            ++ " to " ++ (streak_scan (day_pairs lw)).streak_end.getD ("None")
            ++ ". Prepare preventive measures."
         else "✅ Low disease risk. Weather conditions are favorable for crop health.") := by
  unfold calculate_blister_blight_risk
  dsimp only
  rw [ws_streak_eq, ws_summary_eq]
  split_ifs <;> exact ⟨rfl, rfl, rfl, rfl⟩

end weather_service

namespace tomorrowio_service

theorem tio_foldl_streak (l : List TioInterval) (st : StreakState) (es : List ForecastEntry) :
    (l.foldl scan_step ⟨st, es⟩).streak
      = (l.map (fun i => (i.startTime.getD (""), is_risk_day i))).foldl
          (fun s p => streakUpdate s p.1 p.2) st := by
  induction l generalizing st es with
  | nil => rfl
  | cons d l ih =>
    rw [List.foldl_cons, List.map_cons, List.foldl_cons]
    exact ih _ _

theorem tio_foldl_summary (l : List TioInterval) (st : StreakState) (es : List ForecastEntry) :
    (l.foldl scan_step ⟨st, es⟩).forecast_summary = es ++ l.map interval_entry := by
  induction l generalizing st es with
  | nil => simp
  | cons d l ih =>
    rw [List.foldl_cons, List.map_cons]
    have h := ih (streakUpdate st (d.startTime.getD ("")) (is_risk_day d)) (es ++ [interval_entry d])
    exact h.trans (by simp)

theorem tio_streak_eq (lt : List TioInterval) :
    ((lt.take 7).foldl scan_step ⟨initStreak, []⟩).streak = streak_scan (interval_pairs lt) := by
  rw [tio_foldl_streak]; rfl

theorem tio_summary_eq (lt : List TioInterval) :
    ((lt.take 7).foldl scan_step ⟨initStreak, []⟩).forecast_summary
      = (lt.take 7).map interval_entry := by
  rw [tio_foldl_summary]; simp

theorem tio_calc_fields (lt : List TioInterval) :
    (calculate_blister_blight_risk lt).consecutive_risk_days
      = (streak_scan (interval_pairs lt)).max_streak
    ∧ (calculate_blister_blight_risk lt).forecast_summary = ((lt.take 7).map interval_entry).take 3
    ∧ (calculate_blister_blight_risk lt).risk_level =
        (if (streak_scan (interval_pairs lt)).max_streak ≥ 3 then "HIGH"
         else if (streak_scan (interval_pairs lt)).max_streak ≥ 2 then "MODERATE" else "LOW")
    ∧ (calculate_blister_blight_risk lt).details =
        (if (streak_scan (interval_pairs lt)).max_streak ≥ 3 then
          "⚠️ High Blister Blight risk from "
            ++ ((streak_scan (interval_pairs lt)).streak_start.getD ("")).take 10
            ++ " to " ++ ((streak_scan (interval_pairs lt)).streak_end.getD ("")).take 10
            ++ ". Deploy fungicide immediately. Conditions: "
            ++ toString (streak_scan (interval_pairs lt)).max_streak
            ++ " consecutive days with humidity >90% and temp <25°C. Inspect tea bushes for early symptoms."
         else if (streak_scan (interval_pairs lt)).max_streak ≥ 2 then
          "⚡ Moderate disease risk detected from "
            ++ ((streak_scan (interval_pairs lt)).streak_start.getD ("")).take 10
            ++ " to " ++ ((streak_scan (interval_pairs lt)).streak_end.getD ("")).take 10
            ++ ". Monitor tea estates closely. Prepare preventive fungicide sprays. "
            ++ toString (streak_scan (interval_pairs lt)).max_streak
            ++ " consecutive risk days identified."
         else "✅ Low disease risk. Weather conditions are favorable for crop health. Continue regular monitoring and maintenance routines.") := by
  unfold calculate_blister_blight_risk
  dsimp only
  rw [tio_streak_eq, tio_summary_eq]
  split_ifs <;> exact ⟨rfl, rfl, rfl, rfl⟩

end tomorrowio_service

theorem ws_pairs_snd (lw : List weather_service.MsDay) :
    (weather_service.day_pairs lw).map Prod.snd = ws_risk_flags lw := by
  simp only [weather_service.day_pairs, ws_risk_flags, List.map_map]
  rfl

theorem tio_pairs_snd (lt : List tomorrowio_service.TioInterval) :
    (tomorrowio_service.interval_pairs lt).map Prod.snd = tio_risk_flags lt := by
  simp only [tomorrowio_service.interval_pairs, tio_risk_flags, List.map_map]
  rfl

theorem ws_scan_max (lw : List weather_service.MsDay) :
    (streak_scan (weather_service.day_pairs lw)).max_streak
      = longest_true_run (ws_risk_flags lw) := by
  rw [streak_scan_max, ws_pairs_snd, longest_true_run_eq_maxRun]

theorem tio_scan_max (lt : List tomorrowio_service.TioInterval) :
    (streak_scan (tomorrowio_service.interval_pairs lt)).max_streak
      = longest_true_run (tio_risk_flags lt) := by
  rw [streak_scan_max, tio_pairs_snd, longest_true_run_eq_maxRun]

/-! ### Claims on the disease classifiers -/

/-- C1: for every observation sequence (both classifier implementations), the
risk level is determined solely by the length of the longest run of qualifying
days anywhere in the first 7 (truncated) entries, a day qualifying iff
humidity > 90 and temperature < 25: HIGH iff that length is ≥ 3, MODERATE iff
it equals 2, LOW otherwise; and `consecutive_risk_days` equals that length.
The documented MODERATE thresholds (85 % / 27 °C) appear nowhere. -/
theorem c1_risk_level_determined_by_longest_run :
    ∀ (lw : List weather_service.MsDay) (lt : List tomorrowio_service.TioInterval),
      ((weather_service.calculate_blister_blight_risk lw).consecutive_risk_days
          = longest_true_run (ws_risk_flags lw)
        ∧ (weather_service.calculate_blister_blight_risk lw).risk_level
          = (if 3 ≤ longest_true_run (ws_risk_flags lw) then "HIGH"
             else if longest_true_run (ws_risk_flags lw) = 2 then "MODERATE" else "LOW"))
      ∧ ((tomorrowio_service.calculate_blister_blight_risk lt).consecutive_risk_days
          = longest_true_run (tio_risk_flags lt)
        ∧ (tomorrowio_service.calculate_blister_blight_risk lt).risk_level
          = (if 3 ≤ longest_true_run (tio_risk_flags lt) then "HIGH"
             else if longest_true_run (tio_risk_flags lt) = 2 then "MODERATE" else "LOW")) := by
  intro lw lt
  obtain ⟨hdays, -, hlevel, -⟩ := weather_service.ws_calc_fields lw
  obtain ⟨hdays', -, hlevel', -⟩ := tomorrowio_service.tio_calc_fields lt
  rw [ws_scan_max] at hdays hlevel
  rw [tio_scan_max] at hdays' hlevel'
  refine ⟨⟨hdays, ?_⟩, hdays', ?_⟩
  · rw [hlevel]
    split_ifs <;> first | rfl | omega
  · rw [hlevel']
    split_ifs <;> first | rfl | omega

/-- C2 counterexample: on `c2_demo` the qualifying flags are
[true, true, false, true], so the unique run achieving `max_streak = 2` spans
2024-01-01..2024-01-02, yet the rationale embeds the span 2024-01-04..2024-01-04
of the later run of length 1 — the claim's span rule is false on the code. -/
theorem c2_counterexample :
    (weather_service.calculate_blister_blight_risk c2_demo).consecutive_risk_days = 2
    ∧ ws_risk_flags c2_demo = [true, true, false, true]
    ∧ (weather_service.calculate_blister_blight_risk c2_demo).details
        = "⚡ Moderate disease risk. Monitor closely from 2024-01-04 to 2024-01-04. Prepare preventive measures."
    ∧ (weather_service.calculate_blister_blight_risk c2_demo).details
        ≠ "⚡ Moderate disease risk. Monitor closely from 2024-01-01 to 2024-01-02. Prepare preventive measures." := by
  decide

/-- C2 (amended): when `max_streak ≥ 2`, the date span embedded in the
rationale is the calendar span of the *last* run of qualifying days observed
in the scan — its start is the first day of the last run and its end is the
last qualifying day — whether or not that run achieved `max_streak` (when runs
tie for the maximum the last run is among them, so the tie rule of the
original claim is the special case in which the last run attains the
maximum). -/
theorem c2_rationale_dates_of_last_run :
    ∀ (lw : List weather_service.MsDay) (lt : List tomorrowio_service.TioInterval),
      (2 ≤ longest_true_run (ws_risk_flags lw) →
        (weather_service.calculate_blister_blight_risk lw).details =
          (if 3 ≤ longest_true_run (ws_risk_flags lw) then
            "⚠️ High Blister Blight risk detected from "
              ++ (last_run_start (weather_service.day_pairs lw)).getD ("None")
              ++ " to " ++ (last_run_end (weather_service.day_pairs lw)).getD ("None")
              ++ ". Deploy fungicide immediately. Conditions: "
              ++ toString (longest_true_run (ws_risk_flags lw))
              ++ " consecutive days with humidity >90% and temp <25°C."
           else
            "⚡ Moderate disease risk. Monitor closely from "
              ++ (last_run_start (weather_service.day_pairs lw)).getD ("None")
              ++ " to " ++ (last_run_end (weather_service.day_pairs lw)).getD ("None")
              ++ ". Prepare preventive measures."))
      ∧ (2 ≤ longest_true_run (tio_risk_flags lt) →
        (tomorrowio_service.calculate_blister_blight_risk lt).details =
          (if 3 ≤ longest_true_run (tio_risk_flags lt) then
            "⚠️ High Blister Blight risk from "
              ++ ((last_run_start (tomorrowio_service.interval_pairs lt)).getD ("")).take 10
              ++ " to " ++ ((last_run_end (tomorrowio_service.interval_pairs lt)).getD ("")).take 10
              ++ ". Deploy fungicide immediately. Conditions: "
              ++ toString (longest_true_run (tio_risk_flags lt))
              ++ " consecutive days with humidity >90% and temp <25°C. Inspect tea bushes for early symptoms."
           else
            "⚡ Moderate disease risk detected from "
              ++ ((last_run_start (tomorrowio_service.interval_pairs lt)).getD ("")).take 10
              ++ " to " ++ ((last_run_end (tomorrowio_service.interval_pairs lt)).getD ("")).take 10
              ++ ". Monitor tea estates closely. Prepare preventive fungicide sprays. "
              ++ toString (longest_true_run (tio_risk_flags lt))
              ++ " consecutive risk days identified.")) := by
  intro lw lt
  constructor
  · intro h2
    obtain ⟨-, -, -, hdet⟩ := weather_service.ws_calc_fields lw
    obtain ⟨-, hstart, hend⟩ := streak_scan_dates (weather_service.day_pairs lw)
    rw [hdet, hstart, hend, ws_scan_max]
    rw [last_run_start, last_run_end]
    split_ifs <;> first | rfl | omega
  · intro h2
    obtain ⟨-, -, -, hdet⟩ := tomorrowio_service.tio_calc_fields lt
    obtain ⟨-, hstart, hend⟩ := streak_scan_dates (tomorrowio_service.interval_pairs lt)
    rw [hdet, hstart, hend, tio_scan_max]
    rw [last_run_start, last_run_end]
    split_ifs <;> first | rfl | omega

/-- C2 witness: the amended theorem applied to concrete two-day runs in both
classifiers. -/
theorem c2_rationale_dates_of_last_run_witness :
    (weather_service.calculate_blister_blight_risk c2_demo).details
      = "⚡ Moderate disease risk. Monitor closely from 2024-01-04 to 2024-01-04. Prepare preventive measures."
    ∧ (tomorrowio_service.calculate_blister_blight_risk c2_tio_demo).details
      = "⚡ Moderate disease risk detected from 2024-01-01 to 2024-01-02. Monitor tea estates closely. Prepare preventive fungicide sprays. 2 consecutive risk days identified." := by
  constructor
  · have h := (c2_rationale_dates_of_last_run c2_demo c2_tio_demo).1 (by decide)
    rw [h]
    decide
  · have h := (c2_rationale_dates_of_last_run c2_demo c2_tio_demo).2 (by decide)
    rw [h]
    decide

/-- C6 counterexample: the meteosource classifier carries the raw temperature
(20.55) into the summary; it is not rounded to one decimal place. -/
theorem c6_counterexample :
    (weather_service.calculate_blister_blight_risk c6_demo).forecast_summary
      = [⟨"2024-01-01", mkRat 411 20, 50, "🌤️", false⟩]
    ∧ mkRat 411 20 ≠ pyRound1 (mkRat 411 20) := by
  decide

/-- C6 (amended): both classifiers return as display summary exactly the first
min(3, n) entries of the analyzed (truncated) window, each carrying the date,
temperature, humidity, an icon from the condition data and the risk flag; the
Tomorrow.io classifier rounds temperature and humidity to one decimal place,
while the meteosource classifier carries them unrounded. -/
theorem c6_summary_first_three_entries :
    ∀ (lw : List weather_service.MsDay) (lt : List tomorrowio_service.TioInterval),
      ((weather_service.calculate_blister_blight_risk lw).forecast_summary
          = ((lw.take 7).take 3).map (fun d =>
              { date := d.day.getD ("Unknown")
                temperature := d.all_day_temperature.getD 30
                humidity := d.all_day_humidity.getD 50
                weather_icon := weather_service.get_weather_icon (d.summary.getD (""))
                is_risk_day := weather_service.is_risk_day d })
        ∧ (weather_service.calculate_blister_blight_risk lw).forecast_summary.length
          = min 3 (min 7 lw.length))
      ∧ ((tomorrowio_service.calculate_blister_blight_risk lt).forecast_summary
          = ((lt.take 7).take 3).map (fun i =>
              { date := tomorrowio_service.interval_date i
                temperature := pyRound1 (i.temperature.getD 30)
                humidity := pyRound1 (i.humidity.getD 50)
                weather_icon := tomorrowio_service.get_weather_icon (i.weatherCode.getD 1000)
                is_risk_day := tomorrowio_service.is_risk_day i })
        ∧ (tomorrowio_service.calculate_blister_blight_risk lt).forecast_summary.length
          = min 3 (min 7 lt.length)) := by
  intro lw lt
  obtain ⟨-, hsum, -, -⟩ := weather_service.ws_calc_fields lw
  obtain ⟨-, hsum', -, -⟩ := tomorrowio_service.tio_calc_fields lt
  constructor
  · constructor
    · rw [hsum, ← List.map_take]
      rfl
    · rw [hsum]
      simp [Nat.min_comm]
  · constructor
    · rw [hsum', ← List.map_take]
      rfl
    · rw [hsum']
      simp [Nat.min_comm]

/-- C7: both disease classifiers are total Lean functions (they can never
raise); the empty sequence yields LOW with 0 consecutive risk days and an
empty summary; a day missing its temperature (default 30) or humidity
(default 50) never qualifies as a risk day and is carried with those defaults;
and every verdict's level is one of LOW, MODERATE, HIGH. -/
theorem c7_total_empty_and_missing_defaults :
    (weather_service.calculate_blister_blight_risk [] =
      { risk_level := "LOW"
        details := "✅ Low disease risk. Weather conditions are favorable for crop health."
        consecutive_risk_days := 0
        forecast_summary := [] })
    ∧ (tomorrowio_service.calculate_blister_blight_risk [] =
      { risk_level := "LOW"
        details := "✅ Low disease risk. Weather conditions are favorable for crop health. Continue regular monitoring and maintenance routines."
        consecutive_risk_days := 0
        forecast_summary := [] })
    ∧ (∀ d : weather_service.MsDay,
        d.all_day_temperature = none ∨ d.all_day_humidity = none →
          weather_service.is_risk_day d = false)
    ∧ (∀ d : weather_service.MsDay, d.all_day_temperature = none →
        (weather_service.day_entry d).temperature = 30)
    ∧ (∀ d : weather_service.MsDay, d.all_day_humidity = none →
        (weather_service.day_entry d).humidity = 50)
    ∧ (∀ i : tomorrowio_service.TioInterval,
        i.temperature = none ∨ i.humidity = none →
          tomorrowio_service.is_risk_day i = false)
    ∧ (∀ i : tomorrowio_service.TioInterval, i.temperature = none →
        (tomorrowio_service.interval_entry i).temperature = 30)
    ∧ (∀ i : tomorrowio_service.TioInterval, i.humidity = none →
        (tomorrowio_service.interval_entry i).humidity = 50)
    ∧ (∀ lw : List weather_service.MsDay,
        (weather_service.calculate_blister_blight_risk lw).risk_level
          ∈ (["LOW", "MODERATE", "HIGH"] : List String))
    ∧ (∀ lt : List tomorrowio_service.TioInterval,
        (tomorrowio_service.calculate_blister_blight_risk lt).risk_level
          ∈ (["LOW", "MODERATE", "HIGH"] : List String)) := by
  refine ⟨by decide, by decide, ?_, ?_, ?_, ?_, ?_, ?_, ?_, ?_⟩
  · rintro d (h | h) <;>
      · rw [weather_service.is_risk_day, h]
        simp only [Option.getD]
        apply decide_eq_false
        rintro ⟨h1, h2⟩ <;> norm_num at h1 h2
  · intro d h
    rw [weather_service.day_entry, h]
    rfl
  · intro d h
    rw [weather_service.day_entry, h]
    rfl
  · rintro i (h | h) <;>
      · rw [tomorrowio_service.is_risk_day, h]
        simp only [Option.getD]
        apply decide_eq_false
        rintro ⟨h1, h2⟩ <;> norm_num at h1 h2
  · intro i h
    rw [tomorrowio_service.interval_entry, h]
    show pyRound1 30 = 30
    decide
  · intro i h
    rw [tomorrowio_service.interval_entry, h]
    show pyRound1 50 = 50
    decide
  · intro lw
    obtain ⟨-, -, hlevel, -⟩ := weather_service.ws_calc_fields lw
    rw [hlevel]
    split_ifs <;> simp
  · intro lt
    obtain ⟨-, -, hlevel, -⟩ := tomorrowio_service.tio_calc_fields lt
    rw [hlevel]
    split_ifs <;> simp

/-- C7 witness: the defaults evaluated at concrete records with a missing
temperature or humidity field, and the empty-input verdict. -/
theorem c7_total_empty_and_missing_defaults_witness :
    weather_service.is_risk_day ⟨some "2024-01-01", none, some 95, none⟩ = false
    ∧ (weather_service.day_entry ⟨some "2024-01-01", none, some 95, none⟩).temperature = 30
    ∧ (weather_service.day_entry ⟨some "2024-01-01", some 20, none, none⟩).humidity = 50
    ∧ tomorrowio_service.is_risk_day ⟨some "t", none, none, none⟩ = false
    ∧ (tomorrowio_service.interval_entry ⟨some "t", none, none, none⟩).temperature = 30
    ∧ (tomorrowio_service.interval_entry ⟨some "t", none, none, none⟩).humidity = 50
    ∧ (weather_service.calculate_blister_blight_risk []).risk_level
        ∈ (["LOW", "MODERATE", "HIGH"] : List String) := by
  refine ⟨c7_total_empty_and_missing_defaults.2.2.1 _ (Or.inl rfl),
    c7_total_empty_and_missing_defaults.2.2.2.1 _ rfl,
    c7_total_empty_and_missing_defaults.2.2.2.2.1 _ rfl,
    c7_total_empty_and_missing_defaults.2.2.2.2.2.1 _ (Or.inl rfl),
    c7_total_empty_and_missing_defaults.2.2.2.2.2.2.1 _ rfl,
    c7_total_empty_and_missing_defaults.2.2.2.2.2.2.2.1 _ rfl,
    c7_total_empty_and_missing_defaults.2.2.2.2.2.2.2.2.1 []⟩

/-! ### Claims on the alert classifier -/

namespace alert_service

theorem flood_scan_eq_find (lat lon : ℚ) (now_ts : String) (l : List FloodInterval) :
    flood_scan lat lon now_ts l =
      (match l.find? (fun i => decide (i.floodRiskIndex.getD 0 > 70)) with
       | none => []
       | some i => [mk_flood_alert lat lon now_ts i]) := by
  induction l with
  | nil => rfl
  | cons i rest ih =>
    rw [flood_scan, List.find?_cons]
    rcases h : decide (i.floodRiskIndex.getD 0 > 70) with _ | _
    · rw [if_neg (by simpa using h), ih]
    · rw [if_pos (by simpa using h)]

/-- C3: flood-risk classification scans at most the first 5 entries in order
and yields at most one alert — the alert of the first entry whose index
(missing index defaulting to 0) exceeds 70, with severity warning iff the
index exceeds 85 and watch otherwise, and with the index embedded in the title
and in the description; when no scanned entry qualifies the result is the
empty list (the function is total, so no error is possible). -/
theorem c3_flood_alert_first_qualifying :
    ∀ (lat lon : ℚ) (now_ts : String) (intervals : List FloodInterval),
      (flood_risk_alerts lat lon now_ts intervals =
        (match (intervals.take 5).find? (fun i => decide (i.floodRiskIndex.getD 0 > 70)) with
         | none => []
         | some i =>
           [{ id := "flood_" ++ now_ts
              type := "flood"
              severity := if i.floodRiskIndex.getD 0 > 85 then "warning" else "watch"
              title := "Flood Risk Alert - Index " ++ toString (i.floodRiskIndex.getD 0) ++ "%"
              description := "High flood risk predicted. Risk index: "
                ++ toString (i.floodRiskIndex.getD 0)
                ++ "/100. Based on precipitation forecasts and hydrologic modeling."
              affected_regions := ["Local Area"]
              start_time := i.startTime
              end_time := none
              coordinates := (lat, lon)
              radius := 50
              source := "tomorrowio"
              recommendations := generate_recommendations ("flood")
                (if i.floodRiskIndex.getD 0 > 85 then "warning" else "watch") }]))
      ∧ (flood_risk_alerts lat lon now_ts intervals).length ≤ 1 := by
  intro lat lon now_ts intervals
  have h := flood_scan_eq_find lat lon now_ts (intervals.take 5)
  constructor
  · exact h
  · rw [flood_risk_alerts, h]
    cases hf : (intervals.take 5).find? (fun i => decide (i.floodRiskIndex.getD 0 > 70)) <;> simp

theorem landslide_band1_eq (x : ℚ) :
    (if x > 200 then (0:ℤ) + 40 else if x > 100 then 0 + 25 else if x > 50 then 0 + 10 else 0)
      = precip3_points x := by
  unfold precip3_points
  split_ifs <;> omega

theorem landslide_band2_eq (base : ℤ) (x : ℚ) :
    (if x > 50 then base + 30 else if x > 25 then base + 15 else base)
      = base + intensity_points x := by
  unfold intensity_points
  split_ifs <;> omega

theorem landslide_band3_eq (base : ℤ) (x : ℚ) :
    (if x > mkRat 8 10 then base + 20 else if x > mkRat 6 10 then base + 10 else base)
      = base + soil_points x := by
  unfold soil_points
  split_ifs <;> omega

theorem landslide_band4_eq (base : ℤ) (x : ℚ) :
    (if x > 30 then base + 10 else if x > 20 then base + 5 else base)
      = base + slope_points x := by
  unfold slope_points
  split_ifs <;> omega

theorem landslide_sev_eq (s : ℤ) :
    (if s ≥ 70 then (("critical" : String), s)
     else if s ≥ 50 then ("warning", s)
     else if s ≥ 30 then ("watch", s)
     else ("advisory", s)) = (severity_bucket s, s) := by
  unfold severity_bucket
  split_ifs <;> rfl

theorem landslide_score_eq (pm p3 sm sd : ℚ) :
    calculate_landslide_risk pm p3 sm sd =
      (severity_bucket (precip3_points p3 + intensity_points pm + soil_points sm + slope_points sd),
       precip3_points p3 + intensity_points pm + soil_points sm + slope_points sd) := by
  unfold calculate_landslide_risk
  dsimp only
  rw [landslide_band1_eq, landslide_band2_eq, landslide_band3_eq, landslide_band4_eq,
    landslide_sev_eq]

theorem precip3_points_bounds (x : ℚ) : 0 ≤ precip3_points x ∧ precip3_points x ≤ 40 := by
  unfold precip3_points; split_ifs <;> omega

theorem intensity_points_bounds (x : ℚ) : 0 ≤ intensity_points x ∧ intensity_points x ≤ 30 := by
  unfold intensity_points; split_ifs <;> omega

theorem soil_points_bounds (x : ℚ) : 0 ≤ soil_points x ∧ soil_points x ≤ 20 := by
  unfold soil_points; split_ifs <;> omega

theorem slope_points_bounds (x : ℚ) : 0 ≤ slope_points x ∧ slope_points x ≤ 10 := by
  unfold slope_points; split_ifs <;> omega

/-- C4: for all numeric inputs the landslide scorer returns the sum of four
independent highest-met-band contributions (3-day precip 40/25/10, intensity
30/15, soil moisture 20/10, slope 10/5) with severity buckets critical ≥ 70,
warning in [50,70), watch in [30,50), advisory below; in particular
(60, 250, 0.9, 35) scores (critical, 100) and (10, 10, 0.1, 5) scores
(advisory, 0).  The function is total, so it never fails on numeric input. -/
theorem c4_landslide_additive_bands :
    ∀ (precipitation_mm precipitation_3day soil_moisture slope_degrees : ℚ),
      (calculate_landslide_risk precipitation_mm precipitation_3day soil_moisture slope_degrees
        = (severity_bucket (precip3_points precipitation_3day + intensity_points precipitation_mm
            + soil_points soil_moisture + slope_points slope_degrees),
           precip3_points precipitation_3day + intensity_points precipitation_mm
            + soil_points soil_moisture + slope_points slope_degrees))
      ∧ ((calculate_landslide_risk precipitation_mm precipitation_3day soil_moisture
            slope_degrees).1 = "critical"
          ↔ 70 ≤ (calculate_landslide_risk precipitation_mm precipitation_3day soil_moisture
            slope_degrees).2)
      ∧ ((calculate_landslide_risk precipitation_mm precipitation_3day soil_moisture
            slope_degrees).1 = "warning"
          ↔ 50 ≤ (calculate_landslide_risk precipitation_mm precipitation_3day soil_moisture
              slope_degrees).2
            ∧ (calculate_landslide_risk precipitation_mm precipitation_3day soil_moisture
              slope_degrees).2 < 70)
      ∧ ((calculate_landslide_risk precipitation_mm precipitation_3day soil_moisture
            slope_degrees).1 = "watch"
          ↔ 30 ≤ (calculate_landslide_risk precipitation_mm precipitation_3day soil_moisture
              slope_degrees).2
            ∧ (calculate_landslide_risk precipitation_mm precipitation_3day soil_moisture
              slope_degrees).2 < 50)
      ∧ ((calculate_landslide_risk precipitation_mm precipitation_3day soil_moisture
            slope_degrees).1 = "advisory"
          ↔ (calculate_landslide_risk precipitation_mm precipitation_3day soil_moisture
            slope_degrees).2 < 30)
      ∧ calculate_landslide_risk 60 250 (mkRat 9 10) 35 = ("critical", 100)
      ∧ calculate_landslide_risk 10 10 (mkRat 1 10) 5 = ("advisory", 0) := by
  intro pm p3 sm sd
  have h := landslide_score_eq pm p3 sm sd
  refine ⟨h, ?_, ?_, ?_, ?_, by decide, by decide⟩ <;>
    · rw [h]
      unfold severity_bucket
      split_ifs <;> (try simp_all) <;> omega

/-- C10: for all numeric inputs — including out-of-range soil moisture and
arbitrarily large precipitation — the landslide risk score lies in [0, 100]:
each signal contributes at most its top band (40 + 30 + 20 + 10) and never a
negative amount. -/
theorem c10_landslide_score_in_range :
    ∀ (precipitation_mm precipitation_3day soil_moisture slope_degrees : ℚ),
      0 ≤ (calculate_landslide_risk precipitation_mm precipitation_3day soil_moisture
          slope_degrees).2
      ∧ (calculate_landslide_risk precipitation_mm precipitation_3day soil_moisture
          slope_degrees).2 ≤ 100 := by
  intro pm p3 sm sd
  rw [landslide_score_eq]
  have h1 := precip3_points_bounds p3
  have h2 := intensity_points_bounds pm
  have h3 := soil_points_bounds sm
  have h4 := slope_points_bounds sd
  dsimp only
  omega

end alert_service

namespace alert_service

/-- C5 counterexample: an event whose `startTime` is present but unparsable
aborts the batch — the well-formed event after it is not processed, although
it yields exactly one alert when processed alone.  The claim that a malformed
individual event never aborts processing of the remaining events is false on
the code. -/
theorem c5_counterexample :
    process_events 7 80 ("2024-01-01T00:00:00") ("1704067200.0")
      [c5_bad_event, c5_good_event] [] = []
    ∧ (process_events 7 80 ("2024-01-01T00:00:00") ("1704067200.0") [c5_good_event] []).length
      = 1 := by
  decide

/-- C5 (amended): an event whose optional fields are merely *missing* is
processed with safe defaults (title "Weather Alert", a generic description
placeholder, no end time, fallback id, "Unknown" region, current time as
start) and never fails; the batch loop keeps the alerts built before the first
failing event and drops the rest (so a garbled field aborts the remaining
events, caught at batch level); and a fault fetching the overall event feed
yields zero events rather than a failure. -/
theorem c5_defaults_and_batch_fault_handling :
    (∀ (lat lon : ℚ) (now_iso now_ts : String)
        (eid ins sev tit desc locn : Option String),
      process_event lat lon now_iso now_ts ⟨eid, ins, sev, tit, desc, locn, none, none⟩ =
        Except.ok
          { id := eid.getD ("evt_" ++ now_ts)
            type := map_event_type (ins.getD (""))
            severity := map_severity (sev.getD (""))
            title := tit.getD ("Weather Alert")
            description := desc.getD ("No description available")
            affected_regions := [locn.getD ("Unknown")]
            start_time := now_iso
            end_time := none
            coordinates := (lat, lon)
            radius := 100
            source := "tomorrowio"
            recommendations := generate_recommendations (map_event_type (ins.getD ("")))
              (map_severity (sev.getD (""))) })
    ∧ (∀ (lat lon : ℚ) (now_iso now_ts : String) (events : List TioEvent)
        (acc : List DisasterAlert),
        process_events lat lon now_iso now_ts events acc =
          acc ++ (events.takeWhile
              (fun e => (process_event lat lon now_iso now_ts e).toOption.isSome)).filterMap
            (fun e => (process_event lat lon now_iso now_ts e).toOption))
    ∧ (∀ (lat lon : ℚ) (now_iso now_ts msg : String),
        event_alerts lat lon now_iso now_ts (.error msg) = []) := by
  refine ⟨?_, ?_, ?_⟩
  · intro lat lon now_iso now_ts eid ins sev tit desc locn
    rfl
  · intro lat lon now_iso now_ts events
    induction events with
    | nil => intro acc; simp [process_events]
    | cons e rest ih =>
      intro acc
      rw [process_events]
      cases hpe : process_event lat lon now_iso now_ts e with
      | ok a =>
        dsimp only
        rw [ih (acc ++ [a])]
        simp [List.takeWhile_cons, List.filterMap_cons, hpe, Except.toOption, List.append_assoc]
      | error msg =>
        dsimp only
        simp [List.takeWhile_cons, hpe, Except.toOption]
  · intro lat lon now_iso now_ts msg
    rfl

end alert_service

/-! ### Claims on the mapping and recommendation tables -/

theorem ascii_lower_not_upper (c : Char) : ascii_lower c ∉ upperChars := by
  unfold ascii_lower
  split
  all_goals first | decide | simp_all [upperChars]

theorem ascii_lower_fixed (c : Char) (h : c ∉ upperChars) : ascii_lower c = c := by
  unfold ascii_lower
  split
  all_goals simp_all [upperChars]

theorem ascii_lower_idem (c : Char) : ascii_lower (ascii_lower c) = ascii_lower c :=
  ascii_lower_fixed _ (ascii_lower_not_upper c)

theorem py_lower_idem (s : String) : py_lower (py_lower s) = py_lower s := by
  unfold py_lower
  refine congrArg String.mk ?_
  show (s.data.map ascii_lower).map ascii_lower = s.data.map ascii_lower
  rw [List.map_map]
  exact List.map_congr_left (fun a _ => ascii_lower_idem a)

namespace alert_service

theorem map_event_type_default (s : String)
    (h : py_lower s ∉ (["flood", "tropical", "wind", "winter", "temperature",
      "thunderstorm", "other"] : List String)) :
    map_event_type s = "heavy_rain" := by
  simp only [List.mem_cons, not_or] at h
  obtain ⟨h1, h2, h3, h4, h5, h6, h7, -⟩ := h
  unfold map_event_type
  dsimp only
  rw [List.lookup, List.lookup, List.lookup, List.lookup, List.lookup, List.lookup, List.lookup]
  have b1 : (py_lower s == "flood") = false := beq_eq_false_iff_ne.mpr h1
  have b2 : (py_lower s == "tropical") = false := beq_eq_false_iff_ne.mpr h2
  have b3 : (py_lower s == "wind") = false := beq_eq_false_iff_ne.mpr h3
  have b4 : (py_lower s == "winter") = false := beq_eq_false_iff_ne.mpr h4
  have b5 : (py_lower s == "temperature") = false := beq_eq_false_iff_ne.mpr h5
  have b6 : (py_lower s == "thunderstorm") = false := beq_eq_false_iff_ne.mpr h6
  have b7 : (py_lower s == "other") = false := beq_eq_false_iff_ne.mpr h7
  simp [b1, b2, b3, b4, b5, b6, b7]

theorem map_severity_default (s : String)
    (h : py_lower s ∉ (["minor", "moderate", "severe", "extreme"] : List String)) :
    map_severity s = "advisory" := by
  simp only [List.mem_cons, not_or] at h
  obtain ⟨h1, h2, h3, h4, -⟩ := h
  unfold map_severity
  dsimp only
  rw [List.lookup, List.lookup, List.lookup, List.lookup]
  have b1 : (py_lower s == "minor") = false := beq_eq_false_iff_ne.mpr h1
  have b2 : (py_lower s == "moderate") = false := beq_eq_false_iff_ne.mpr h2
  have b3 : (py_lower s == "severe") = false := beq_eq_false_iff_ne.mpr h3
  have b4 : (py_lower s == "extreme") = false := beq_eq_false_iff_ne.mpr h4
  simp [b1, b2, b3, b4]

/-- C8: both mapping tables match case-insensitively — mapping any string is
the same as mapping its lower-casing — with the fixed tables
flood→flood, tropical→cyclone, wind→wind, winter→temperature,
temperature→temperature, thunderstorm→heavy_rain, other→heavy_rain and
minor→advisory, moderate→watch, severe→warning, extreme→critical, and with
every unrecognized key defaulting to heavy_rain (event type) respectively
advisory (severity). -/
theorem c8_mapping_case_insensitive_and_tables :
    (∀ s : String, map_event_type s = map_event_type (py_lower s))
    ∧ (∀ s : String, map_severity s = map_severity (py_lower s))
    ∧ map_event_type ("flood") = "flood"
    ∧ map_event_type ("tropical") = "cyclone"
    ∧ map_event_type ("wind") = "wind"
    ∧ map_event_type ("winter") = "temperature"
    ∧ map_event_type ("temperature") = "temperature"
    ∧ map_event_type ("thunderstorm") = "heavy_rain"
    ∧ map_event_type ("other") = "heavy_rain"
    ∧ (∀ s : String,
        py_lower s ∉ (["flood", "tropical", "wind", "winter", "temperature",
          "thunderstorm", "other"] : List String) →
        map_event_type s = "heavy_rain")
    ∧ map_severity ("minor") = "advisory"
    ∧ map_severity ("moderate") = "watch"
    ∧ map_severity ("severe") = "warning"
    ∧ map_severity ("extreme") = "critical"
    ∧ (∀ s : String,
        py_lower s ∉ (["minor", "moderate", "severe", "extreme"] : List String) →
        map_severity s = "advisory") := by
  refine ⟨?_, ?_, by decide, by decide, by decide, by decide, by decide, by decide, by decide,
    map_event_type_default, by decide, by decide, by decide, by decide, map_severity_default⟩
  · intro s
    unfold map_event_type
    rw [py_lower_idem]
  · intro s
    unfold map_severity
    rw [py_lower_idem]

/-- C8 witness: the case-insensitive defaults evaluated at concrete
unrecognized keys (and, through the other conjuncts, the uppercase variants of
the table keys). -/
theorem c8_mapping_case_insensitive_and_tables_witness :
    map_event_type ("HAIL") = "heavy_rain" ∧ map_severity ("unknown") = "advisory" := by
  refine ⟨c8_mapping_case_insensitive_and_tables.2.2.2.2.2.2.2.2.2.1 ("HAIL") (by decide),
    c8_mapping_case_insensitive_and_tables.2.2.2.2.2.2.2.2.2.2.2.2.2.2 ("unknown") (by decide)⟩

/-- C9: the recommendation lookup always yields a non-empty list; an
unrecognized alert type yields exactly one generic advisory string; and for
the types flood, cyclone and landslide the list depends only on whether the
severity lies in the urgent bucket {critical, warning} — with the two buckets
giving different lists. -/
theorem c9_recommendations_nonempty_and_bucketed :
    ∀ t s : String,
      generate_recommendations t s ≠ []
      ∧ (t ∉ (["flood", "cyclone", "heavy_rain", "landslide", "drought"] : List String) →
          generate_recommendations t s =
            ["Monitor weather conditions closely and follow official advisories"]
          ∧ (generate_recommendations t s).length = 1)
      ∧ (t ∈ (["flood", "cyclone", "landslide"] : List String) →
          (∀ s1 s2 : String,
            (s1 ∈ (["critical", "warning"] : List String)
              ↔ s2 ∈ (["critical", "warning"] : List String)) →
            generate_recommendations t s1 = generate_recommendations t s2)
          ∧ generate_recommendations t ("warning") = generate_recommendations t ("critical")
          ∧ generate_recommendations t ("advisory") = generate_recommendations t ("watch")
          ∧ generate_recommendations t ("warning") ≠ generate_recommendations t ("watch")) := by
  intro t s
  refine ⟨?_, ?_, ?_⟩
  · unfold generate_recommendations
    split_ifs <;> simp
  · intro h
    simp only [List.mem_cons, not_or] at h
    obtain ⟨h1, h2, h3, h4, h5, -⟩ := h
    unfold generate_recommendations
    rw [if_neg h1, if_neg h2, if_neg h3, if_neg h4, if_neg h5]
    exact ⟨rfl, rfl⟩
  · intro ht
    have hbucket : ∀ u : String, u ∈ (["flood", "cyclone", "landslide"] : List String) →
        ∀ s1 s2 : String,
          (s1 ∈ (["critical", "warning"] : List String)
            ↔ s2 ∈ (["critical", "warning"] : List String)) →
          generate_recommendations u s1 = generate_recommendations u s2 := by
      intro u hu s1 s2 hiff
      simp only [List.mem_cons, List.mem_singleton, List.not_mem_nil, or_false] at hu
      unfold generate_recommendations
      rcases hu with rfl | rfl | rfl <;>
        (split_ifs <;> first | rfl | (exfalso; tauto) | (exfalso; simp_all))
    have ht' := ht
    simp only [List.mem_cons, List.mem_singleton, List.not_mem_nil, or_false] at ht'
    refine ⟨hbucket t ht, ?_, ?_, ?_⟩ <;> (rcases ht' with rfl | rfl | rfl <;> decide)

/-- C9 witness: the recommendation table evaluated at an unrecognized type, at
the bucket boundaries for each severity-dependent type, and at an unrecognized
severity (which falls in the preparatory bucket). -/
theorem c9_recommendations_nonempty_and_bucketed_witness :
    generate_recommendations ("earthquake") ("warning")
      = ["Monitor weather conditions closely and follow official advisories"]
    ∧ generate_recommendations ("flood") ("warning")
      = generate_recommendations ("flood") ("critical")
    ∧ generate_recommendations ("cyclone") ("advisory")
      = generate_recommendations ("cyclone") ("watch")
    ∧ generate_recommendations ("landslide") ("warning")
      ≠ generate_recommendations ("landslide") ("watch")
    ∧ generate_recommendations ("flood") ("banana")
      = generate_recommendations ("flood") ("advisory") := by
  refine ⟨((c9_recommendations_nonempty_and_bucketed ("earthquake") ("warning")).2.1
      (by decide)).1,
    ((c9_recommendations_nonempty_and_bucketed ("flood") ("warning")).2.2 (by decide)).2.1,
    ((c9_recommendations_nonempty_and_bucketed ("cyclone") ("advisory")).2.2 (by decide)).2.2.1,
    ((c9_recommendations_nonempty_and_bucketed ("landslide") ("warning")).2.2 (by decide)).2.2.2,
    ((c9_recommendations_nonempty_and_bucketed ("flood") ("banana")).2.2 (by decide)).1
      ("banana") ("advisory") (by decide)⟩

end alert_service
